import Mathlib

/-!
Shallow embedding of the DALI lab5 template sources
(`template_files/lab5/lab5.c`, `template_files/lab5/hw_interface.c`,
`template_files/lab5/hw_interface.h`).

Registers that the code manipulates bitwise (`TIMA1->COUNTERREGS.CTRCTL`,
`GPIOA->DIN31_0`) are modelled as natural numbers below `2^32`; registers that
the code only assigns whole configuration values to are modelled as semantic
fields (clock selection, repeat mode, interrupt mask bit, ...), because the
vendor device header that defines their bit encodings is not part of this
repository and no property here depends on those encodings.
-/

/-- Button bit masks from hw_interface.h lines 42-45:
`#define SW1 ((uint32_t) 0x1 << 23)` and likewise bits 24, 25, 26. -/
def SW1 : Nat := 0x1 <<< 23

/-- hw_interface.h line 43: bit 24. -/
def SW2 : Nat := 0x1 <<< 24

/-- hw_interface.h line 44: bit 25. -/
def SW3 : Nat := 0x1 <<< 25

/-- hw_interface.h line 45: bit 26. -/
def SW4 : Nat := 0x1 <<< 26

/-- Modelled from the vendor device header (external to this repository):
`GPTIMER_CTRCTL_EN_ENABLED`, the counter-enable bit of the CTRCTL register,
which is bit 0. -/
def GPTIMER_CTRCTL_EN_ENABLED : Nat := 0x1

/-- The all-ones 32-bit word. The C expression `~GPTIMER_CTRCTL_EN_ENABLED`
on a `uint32_t` is `MASK32 ^^^ GPTIMER_CTRCTL_EN_ENABLED`. -/
def MASK32 : Nat := 0xFFFFFFFF

/-- Modelled from the vendor device header (external to this repository): the
CTRCTL configuration value `GPTIMER_CTRCTL_REPEAT_REPEAT_1 |
GPTIMER_CTRCTL_CM_UP | GPTIMER_CTRCTL_CVAE_ZEROVAL |
GPTIMER_CTRCTL_EN_DISABLED` written by `InitializeTimerA1_PWM`
(hw_interface.c lines 145-146). The vendor encoding places the REPEAT, CM and
CVAE fields strictly above bit 0 and `EN_DISABLED = 0`, so the value is even:
its EN bit (bit 0) is clear. The exact field encodings are irrelevant to every
property proved here; only evenness matters, so they are abstracted into one
even constant. -/
def TIMA1_CTRCTL_CONFIG : Nat := 0x2

/-- Clock sources selectable by the code: `GPTIMER_CLKSEL_BUSCLK_SEL_ENABLE`
(32 MHz, per the comment on hw_interface.c line 141) and
`GPTIMER_CLKSEL_LFCLK_SEL_ENABLE` (the 32.768 kHz low-frequency clock). -/
inductive ClkSel where
  | busclk
  | lfclk

/-- Nominal frequency in Hz of each selectable clock source (32 MHz bus clock
per the comment on hw_interface.c line 141; 32768 Hz low-frequency clock). -/
def clkSelHz : ClkSel → Nat
  | ClkSel.busclk => 32000000
  | ClkSel.lfclk => 32768

/-- State of the TIMA1 (PWM) peripheral: the registers written by
`InitializeTimerA1_PWM` (hw_interface.c lines 135-156).  `ctrctl` is the raw
32-bit CTRCTL register (its EN bit is bit 0); the others are semantic fields. -/
structure TimA1State where
  clksel : ClkSel
  clkdiv : Nat
  ccact0ZHighCuLow : Bool
  ctrctl : Nat
  ccpdOut : Bool
  cclkEnabled : Bool
  load : Nat
  cc0 : Nat

/-- State of the TIMG0 (tick) peripheral: the registers written by
`InitializeTimerG0`, `SetTimerG0Delay` and `EnableTimerG0`
(hw_interface.c lines 90-120). -/
structure TimG0State where
  clksel : ClkSel
  repeatMode : Bool
  imaskZ : Bool
  cclkEnabled : Bool
  load : Nat
  enabled : Bool
  irqEnabled : Bool

/-- The modelled hardware state touched by the program: the two timers. -/
structure SystemState where
  tima1 : TimA1State
  timg0 : TimG0State

/-- hw_interface.c lines 9-17: `SetTimerA1Period` is an unimplemented stub
whose body is `return;`. It changes nothing. -/
def SetTimerA1Period (_period : Nat) (s : SystemState) : SystemState := s

/-- hw_interface.c lines 19-22: `EnableTimerA1PWM` is an unimplemented stub
whose body is `return;`. It changes nothing. -/
def EnableTimerA1PWM (s : SystemState) : SystemState := s

/-- hw_interface.c lines 24-27: `DisableTimerA1PWM` is an unimplemented stub
whose body is `return;`. It changes nothing. -/
def DisableTimerA1PWM (s : SystemState) : SystemState := s

/-- hw_interface.c lines 90-92: `TIMG0->COUNTERREGS.LOAD = delay;`. -/
def SetTimerG0Delay (delay : Nat) (s : SystemState) : SystemState :=
  { s with timg0 := { s.timg0 with load := delay } }

/-- hw_interface.c lines 94-97: set the CTRCTL EN bit of TIMG0 and enable the
timer interrupt in the NVIC. -/
def EnableTimerG0 (s : SystemState) : SystemState :=
  { s with timg0 := { s.timg0 with enabled := true, irqEnabled := true } }

/-- hw_interface.c lines 99-120, `InitializeTimerG0`: select LFCLK, assign
`CTRCTL = GPTIMER_CTRCTL_REPEAT_REPEAT_1` (a whole-register write, so the EN
bit is cleared and repeat mode set), set the zero-event bit in
`CPU_INT.IMASK`, and enable the timer's clock input.  (The reset/power
sequence and `delay_cycles` touch no modelled state.) -/
def InitializeTimerG0 (s : SystemState) : SystemState :=
  let g := s.timg0
  let g := { g with clksel := ClkSel.lfclk }
  let g := { g with repeatMode := true, enabled := false }
  let g := { g with imaskZ := true }
  let g := { g with cclkEnabled := true }
  { s with timg0 := g }

/-- hw_interface.c lines 135-156, `InitializeTimerA1_PWM`: select BUSCLK,
divide by 4, configure the capture-compare action, assign CTRCTL the
configuration value (EN disabled), route CCP outputs, enable the timer clock,
set `LOAD = 3999`, set `CC_01[0] = (LOAD + 1) / 2`, then set the CTRCTL EN
bit.  (The reset/power sequence and `delay_cycles` touch no modelled state.) -/
def InitializeTimerA1_PWM (s : SystemState) : SystemState :=
  let t := s.tima1
  let t := { t with clksel := ClkSel.busclk }
  let t := { t with clkdiv := 4 }
  let t := { t with ccact0ZHighCuLow := true }
  let t := { t with ctrctl := TIMA1_CTRCTL_CONFIG }
  let t := { t with ccpdOut := true }
  let t := { t with cclkEnabled := true }
  let t := { t with load := 3999 }
  let t := { t with cc0 := (t.load + 1) / 2 }
  let t := { t with ctrctl := t.ctrctl ||| GPTIMER_CTRCTL_EN_ENABLED }
  { s with tima1 := t }

/-- lab5.c lines 26-33: the tone decision of one loop iteration.
`input = GPIOA->DIN31_0 & (SW1 + SW2 + SW3 + SW4)`; the buzzer plays iff
`(input & SW1) == 0` (SW1 is active-low).  `true` means Playing. -/
def toneDecision (din : Nat) : Bool :=
  let input := din &&& (SW1 + SW2 + SW3 + SW4)
  input &&& SW1 == 0

/-- lab5.c lines 26-33: one iteration of the main loop acting on the TIMA1
CTRCTL register.  If `(input & SW1) == 0` the code runs
`TIMA1->COUNTERREGS.CTRCTL |= GPTIMER_CTRCTL_EN_ENABLED`, otherwise
`TIMA1->COUNTERREGS.CTRCTL &= ~GPTIMER_CTRCTL_EN_ENABLED`. -/
def mainLoopBody (ctrctl din : Nat) : Nat :=
  let input := din &&& (SW1 + SW2 + SW3 + SW4)
  if input &&& SW1 == 0 then
    ctrctl ||| GPTIMER_CTRCTL_EN_ENABLED
  else
    ctrctl &&& (MASK32 ^^^ GPTIMER_CTRCTL_EN_ENABLED)

/-- The same loop iteration, additionally counting the TIMA1 register writes
it performs: each branch of lab5.c lines 28-33 performs exactly one
read-modify-write of CTRCTL, unconditionally. -/
def mainLoopBodyW (ctrctl din : Nat) : Nat × Nat :=
  let input := din &&& (SW1 + SW2 + SW3 + SW4)
  if input &&& SW1 == 0 then
    (ctrctl ||| GPTIMER_CTRCTL_EN_ENABLED, 1)
  else
    (ctrctl &&& (MASK32 ^^^ GPTIMER_CTRCTL_EN_ENABLED), 1)

/-- lab5.c lines 13-23, the startup sequence of `main` restricted to modelled
state (the GPIO/IOMUX configuration and the `delay_cycles` busy-wait touch no
modelled state): `InitializeTimerG0()`, `InitializeTimerA1_PWM()`, disable the
buzzer with `CTRCTL &= ~GPTIMER_CTRCTL_EN_ENABLED`, `SetTimerG0Delay(20)`,
`EnableTimerG0()`. -/
def mainStartup (s : SystemState) : SystemState :=
  let s := InitializeTimerG0 s
  let s := InitializeTimerA1_PWM s
  let s := { s with tima1 := { s.tima1 with
      ctrctl := s.tima1.ctrctl &&& (MASK32 ^^^ GPTIMER_CTRCTL_EN_ENABLED) } }
  let s := SetTimerG0Delay 20 s
  EnableTimerG0 s

/-- The PWM counting frequency in Hz: the selected clock divided by the
CLKDIV ratio (hw_interface.c lines 141-142). -/
def pwmClockHz (t : TimA1State) : Nat := clkSelHz t.clksel / t.clkdiv

/-- The PWM output frequency in Hz: the counting clock divided by LOAD+1
(comment on hw_interface.c line 150: period is LOAD+1). -/
def pwmFreqHz (t : TimA1State) : Nat := pwmClockHz t / (t.load + 1)

/-- Length of one TIMG0 tick in microseconds, at the selected clock. -/
def tickMicroseconds (g : TimG0State) : Nat :=
  g.load * 1000000 / clkSelHz g.clksel

/-- Power-on reset state: all modelled registers zero / cleared. -/
def resetState : SystemState :=
  { tima1 := { clksel := ClkSel.lfclk, clkdiv := 0, ccact0ZHighCuLow := false,
               ctrctl := 0, ccpdOut := false, cclkEnabled := false,
               load := 0, cc0 := 0 },
    timg0 := { clksel := ClkSel.lfclk, repeatMode := false, imaskZ := false,
               cclkEnabled := false, load := 0, enabled := false,
               irqEnabled := false } }

/-- Modelled from the spec (section 4.2): the per-button debouncer state. The
debouncer itself is absent from the repository sources; it is the part of the
lab explicitly left for the student (lab5.c lines 35-37, hw_interface.c line
7).  `pressed` is the debounced logical state, `count` the number of
consecutive raw samples seen that differ from it. -/
structure DebounceState where
  pressed : Bool
  count : Nat

/-- Modelled from the spec (section 4.2): one debounce tick for one button.
If the raw sample agrees with the debounced state the counter resets;
otherwise it counts up, and once N consecutive differing samples have been
seen the debounced state flips and the counter resets. -/
def debounceStep (N : Nat) (s : DebounceState) (raw : Bool) : DebounceState :=
  if raw == s.pressed then
    { s with count := 0 }
  else if N ≤ s.count + 1 then
    { pressed := raw, count := 0 }
  else
    { s with count := s.count + 1 }

/-- Modelled from the spec (section 4.2): feed a sequence of raw samples, one
per tick, through the debouncer. -/
def debounceRun (N : Nat) (s : DebounceState) (raws : List Bool) : DebounceState :=
  raws.foldl (debounceStep N) s

-- ===================================================================
-- Helper lemmas
-- ===================================================================

theorem land_two_pow_eq_zero_iff (x i : Nat) :
    x &&& 2 ^ i = 0 ↔ x.testBit i = false := by
  constructor
  · intro h
    have h2 := congrArg (fun y => y.testBit i) h
    simpa [Nat.testBit_land, Nat.testBit_two_pow_self] using h2
  · intro h
    apply Nat.eq_of_testBit_eq
    intro j
    rw [Nat.testBit_land, Nat.zero_testBit, Nat.testBit_two_pow]
    by_cases hij : i = j
    · subst hij
      simp [h]
    · simp [hij]

theorem toneDecision_eq_not_testBit (din : Nat) :
    toneDecision din = !din.testBit 23 := by
  show ((din &&& (SW1 + SW2 + SW3 + SW4)) &&& SW1 == 0) = !din.testBit 23
  have hmask : (din &&& (SW1 + SW2 + SW3 + SW4)) &&& SW1 = din &&& 2 ^ 23 := by
    rw [Nat.land_assoc]
    have h1 : (SW1 + SW2 + SW3 + SW4) &&& SW1 = 2 ^ 23 := by decide
    rw [h1]
  rw [hmask]
  cases h : din.testBit 23 with
  | false =>
    have hz : din &&& 2 ^ 23 = 0 := (land_two_pow_eq_zero_iff din 23).2 h
    rw [hz]
    rfl
  | true =>
    have hnz : din &&& 2 ^ 23 ≠ 0 := by
      intro hz
      have h2 := (land_two_pow_eq_zero_iff din 23).1 hz
      rw [h] at h2
      exact Bool.noConfusion h2
    show (din &&& 2 ^ 23 == 0) = false
    exact beq_eq_false_iff_ne.mpr hnz

theorem mainLoopBody_eq_decision (ctrctl din : Nat) :
    mainLoopBody ctrctl din =
      if toneDecision din then
        ctrctl ||| GPTIMER_CTRCTL_EN_ENABLED
      else
        ctrctl &&& (MASK32 ^^^ GPTIMER_CTRCTL_EN_ENABLED) := rfl

theorem mainLoopBodyW_eq_decision (ctrctl din : Nat) :
    mainLoopBodyW ctrctl din =
      (if toneDecision din then
        ctrctl ||| GPTIMER_CTRCTL_EN_ENABLED
      else
        ctrctl &&& (MASK32 ^^^ GPTIMER_CTRCTL_EN_ENABLED), 1) := by
  show (if toneDecision din then
          (ctrctl ||| GPTIMER_CTRCTL_EN_ENABLED, 1)
        else
          (ctrctl &&& (MASK32 ^^^ GPTIMER_CTRCTL_EN_ENABLED), 1)) = _
  cases toneDecision din <;> rfl

theorem lor_en_testBit_zero (c : Nat) :
    (c ||| GPTIMER_CTRCTL_EN_ENABLED).testBit 0 = true := by
  rw [Nat.testBit_lor]
  have h : GPTIMER_CTRCTL_EN_ENABLED.testBit 0 = true := by decide
  rw [h, Bool.or_true]

theorem land_noten_testBit_zero (c : Nat) :
    (c &&& (MASK32 ^^^ GPTIMER_CTRCTL_EN_ENABLED)).testBit 0 = false := by
  rw [Nat.testBit_land]
  have h : (MASK32 ^^^ GPTIMER_CTRCTL_EN_ENABLED).testBit 0 = false := by decide
  rw [h, Bool.and_false]

theorem lor_en_idem (c : Nat) :
    (c ||| GPTIMER_CTRCTL_EN_ENABLED) ||| GPTIMER_CTRCTL_EN_ENABLED =
      c ||| GPTIMER_CTRCTL_EN_ENABLED := by
  rw [Nat.lor_assoc, Nat.or_self]

theorem land_noten_idem (c : Nat) :
    (c &&& (MASK32 ^^^ GPTIMER_CTRCTL_EN_ENABLED)) &&&
        (MASK32 ^^^ GPTIMER_CTRCTL_EN_ENABLED) =
      c &&& (MASK32 ^^^ GPTIMER_CTRCTL_EN_ENABLED) := by
  rw [Nat.land_assoc, Nat.and_self]

theorem debounceRun_replicate_lt (N : Nat) (b : Bool) :
    ∀ (j c : Nat), c + j < N →
      debounceRun N ⟨b, c⟩ (List.replicate j (!b)) = ⟨b, c + j⟩ := by
  intro j
  induction j with
  | zero => intro c _; rfl
  | succ j ih =>
    intro c hc
    rw [List.replicate_succ]
    show debounceRun N (debounceStep N ⟨b, c⟩ (!b)) (List.replicate j (!b)) = _
    have hstep : debounceStep N ⟨b, c⟩ (!b) = ⟨b, c + 1⟩ := by
      have hlt : ¬ N ≤ c + 1 := by omega
      cases b <;> simp [debounceStep, hlt]
    rw [hstep]
    have h2 : (c + 1) + j < N := by omega
    rw [ih (c + 1) h2]
    have h3 : c + 1 + j = c + (j + 1) := by omega
    rw [h3]

theorem debounceRun_replicate_flip (N : Nat) (hN : 1 ≤ N) (b : Bool) :
    debounceRun N ⟨b, 0⟩ (List.replicate N (!b)) = ⟨!b, 0⟩ := by
  obtain ⟨m, rfl⟩ : ∃ m, N = m + 1 := ⟨N - 1, by omega⟩
  rw [List.replicate_succ']
  show List.foldl (debounceStep (m + 1)) ⟨b, 0⟩
      (List.replicate m (!b) ++ [!b]) = _
  rw [List.foldl_append]
  have h1 : List.foldl (debounceStep (m + 1)) ⟨b, 0⟩
      (List.replicate m (!b)) = ⟨b, m⟩ := by
    have h2 := debounceRun_replicate_lt (m + 1) b m 0 (by omega)
    simpa [debounceRun] using h2
  rw [h1]
  show debounceStep (m + 1) ⟨b, m⟩ (!b) = ⟨!b, 0⟩
  cases b <;> simp [debounceStep]

-- ===================================================================
-- Claim theorems
-- ===================================================================

/-- C1 counterexample: the claim states that after the period write in
`InitializeTimerA1_PWM` the duty compare value equals `period / 2` under
integer division, i.e. `3999 / 2 = 1999`.  In fact the code writes
`CC_01[0] = (LOAD + 1) / 2 = 2000`, so the claim is false at the concrete
power-on reset state. -/
theorem timer_a1_duty_cex :
    (InitializeTimerA1_PWM resetState).tima1.load = 3999 ∧
    (InitializeTimerA1_PWM resetState).tima1.cc0 = 2000 ∧
    (InitializeTimerA1_PWM resetState).tima1.cc0 ≠ 3999 / 2 :=
  ⟨rfl, by decide, by decide⟩

/-- C1 (amended): after the period write in `InitializeTimerA1_PWM` the duty
compare value equals `(period + 1) / 2` under integer division; in particular,
with period = 3999 the duty compare value is 2000.  The stub
`SetTimerA1Period` performs no writes, so it leaves the compare value
unchanged. -/
theorem timer_a1_duty_half_load_succ (p : Nat) (s : SystemState) :
    (InitializeTimerA1_PWM s).tima1.load = 3999 ∧
    (InitializeTimerA1_PWM s).tima1.cc0 =
      ((InitializeTimerA1_PWM s).tima1.load + 1) / 2 ∧
    (InitializeTimerA1_PWM s).tima1.cc0 = 2000 ∧
    (SetTimerA1Period p s).tima1.cc0 = s.tima1.cc0 := by
  refine ⟨rfl, rfl, ?_, rfl⟩
  show ((3999 : Nat) + 1) / 2 = 2000
  decide

/-- C2: for every GPIO input sample read in a main-loop iteration, if the SW1
bit (bit 23, active-low) is 0 then the PWM timer enable bit (bit 0 of CTRCTL)
is set after the iteration, and otherwise it is cleared. -/
theorem mainLoop_sw1_level (ctrctl din : Nat) :
    (din.testBit 23 = false → (mainLoopBody ctrctl din).testBit 0 = true) ∧
    (din.testBit 23 = true → (mainLoopBody ctrctl din).testBit 0 = false) := by
  constructor
  · intro h
    rw [mainLoopBody_eq_decision, toneDecision_eq_not_testBit, h]
    show ((ctrctl ||| GPTIMER_CTRCTL_EN_ENABLED).testBit 0) = true
    exact lor_en_testBit_zero ctrctl
  · intro h
    rw [mainLoopBody_eq_decision, toneDecision_eq_not_testBit, h]
    show ((ctrctl &&& (MASK32 ^^^ GPTIMER_CTRCTL_EN_ENABLED)).testBit 0) = false
    exact land_noten_testBit_zero ctrctl

/-- Witness for C2 at concrete inputs: SW1 pressed (din = 0, bit 23 low) gives
an enabled PWM; SW1 released (din = 2^23) gives a disabled PWM. -/
theorem mainLoop_sw1_level_witness :
    (0 : Nat).testBit 23 = false ∧
    (mainLoopBody 0 0).testBit 0 = true ∧
    (2 ^ 23 : Nat).testBit 23 = true ∧
    (mainLoopBody 0 (2 ^ 23)).testBit 0 = false :=
  ⟨by decide, (mainLoop_sw1_level 0 0).1 (by decide),
   by decide, (mainLoop_sw1_level 0 (2 ^ 23)).2 (by decide)⟩

/-- C3: (modelled from the spec, the debouncer being an unimplemented student
exercise in the repository) starting from a stable debounced state, any run of
fewer than N consecutive raw samples of the opposite level leaves the
debounced state unchanged, and a run of exactly N consecutive identical
samples of the opposite level flips it exactly once, at the Nth tick (at every
earlier tick the state is still the old one). -/
theorem debounce_flip_at_Nth (N : Nat) (hN : 1 ≤ N) (b : Bool) (j : Nat) :
    (j < N → (debounceRun N ⟨b, 0⟩ (List.replicate j (!b))).pressed = b) ∧
    (debounceRun N ⟨b, 0⟩ (List.replicate N (!b))).pressed = !b := by
  constructor
  · intro hj
    rw [debounceRun_replicate_lt N b j 0 (by omega)]
  · rw [debounceRun_replicate_flip N hN b]

/-- Witness for C3 at N = 3, button initially released: after 2 ticks of
"pressed" the debounced state is still released; after the 3rd tick it has
flipped to pressed. -/
theorem debounce_flip_at_Nth_witness :
    (debounceRun 3 ⟨false, 0⟩ (List.replicate 2 (!false))).pressed = false ∧
    (debounceRun 3 ⟨false, 0⟩ (List.replicate 3 (!false))).pressed = !false :=
  ⟨(debounce_flip_at_Nth 3 (by decide) false 2).1 (by decide),
   (debounce_flip_at_Nth 3 (by decide) false 2).2⟩

/-- C4 counterexample: two consecutive main-loop ticks with identical input
(din = 0, SW1 pressed both ticks, so the tone decision is unchanged): the
second tick leaves the CTRCTL value unchanged, yet it still performs one
CTRCTL register write, not zero as the claim requires. -/
theorem mainLoop_second_tick_write_cex :
    toneDecision 0 = toneDecision 0 ∧
    (mainLoopBodyW (mainLoopBodyW 0 0).1 0).1 = (mainLoopBodyW 0 0).1 ∧
    (mainLoopBodyW (mainLoopBodyW 0 0).1 0).2 ≠ 0 :=
  ⟨rfl, rfl, by decide⟩

/-- C4 (amended): the shipped main loop performs exactly one CTRCTL register
write on every tick, whether or not the tone decision changed; when the
decision is unchanged between two consecutive ticks, the second tick's write
leaves the register value unchanged (the write is redundant but value-
preserving). -/
theorem mainLoop_one_write_per_tick (c d1 d2 : Nat) :
    (mainLoopBodyW c d1).2 = 1 ∧
    (toneDecision d1 = toneDecision d2 →
      (mainLoopBodyW (mainLoopBodyW c d1).1 d2).1 = (mainLoopBodyW c d1).1) := by
  constructor
  · rw [mainLoopBodyW_eq_decision]
  · intro h
    rw [mainLoopBodyW_eq_decision c d1]
    rw [mainLoopBodyW_eq_decision _ d2, ← h]
    cases hd : toneDecision d1 with
    | true => simpa using lor_en_idem c
    | false => simpa using land_noten_idem c

/-- Witness for C4 (amended) at concrete inputs: both ticks see SW1 pressed
(din = 0 then din = SW2 only), the decision is unchanged, one write happens on
the first tick and the second tick's write preserves the register value. -/
theorem mainLoop_one_write_per_tick_witness :
    toneDecision 0 = toneDecision (2 ^ 24) ∧
    (mainLoopBodyW 7 0).2 = 1 ∧
    (mainLoopBodyW (mainLoopBodyW 7 0).1 (2 ^ 24)).1 = (mainLoopBodyW 7 0).1 :=
  ⟨by decide, (mainLoop_one_write_per_tick 7 0 (2 ^ 24)).1,
   (mainLoop_one_write_per_tick 7 0 (2 ^ 24)).2 (by decide)⟩

/-- C5: every button combination in which SW1 is not pressed (bit 23 reads 1,
whatever SW2/SW3/SW4 read) maps to Silent: the iteration ends with the PWM
enable bit (bit 0 of CTRCTL) cleared. -/
theorem mainLoop_unmapped_silent (ctrctl din : Nat)
    (h : din.testBit 23 = true) :
    (mainLoopBody ctrctl din).testBit 0 = false := by
  rw [mainLoopBody_eq_decision, toneDecision_eq_not_testBit, h]
  show ((ctrctl &&& (MASK32 ^^^ GPTIMER_CTRCTL_EN_ENABLED)).testBit 0) = false
  exact land_noten_testBit_zero ctrctl

/-- Witness for C5: SW1 released while SW2, SW3 and SW4 are all pressed
(active-low: their bits read 0), i.e. din = 2^23: the enable bit ends the
iteration cleared. -/
theorem mainLoop_unmapped_silent_witness :
    (2 ^ 23 : Nat).testBit 23 = true ∧
    (mainLoopBody 1 (2 ^ 23)).testBit 0 = false :=
  ⟨by decide, mainLoop_unmapped_silent 1 (2 ^ 23) (by decide)⟩

/-- C6: `InitializeTimerA1_PWM` yields an 8 MHz PWM counting clock (32 MHz bus
clock divided by 4), sets the period register LOAD to 3999, so the output
frequency is 8000000 / (3999 + 1) = 2000 Hz, and the compare value is exactly
half of the LOAD+1-tick PWM cycle (a 50% square wave). -/
theorem timer_a1_init_frequency (s : SystemState) :
    pwmClockHz (InitializeTimerA1_PWM s).tima1 = 8000000 ∧
    (InitializeTimerA1_PWM s).tima1.load = 3999 ∧
    pwmFreqHz (InitializeTimerA1_PWM s).tima1 = 2000 ∧
    2 * (InitializeTimerA1_PWM s).tima1.cc0 =
      (InitializeTimerA1_PWM s).tima1.load + 1 := by
  refine ⟨?_, rfl, ?_, ?_⟩
  · show (32000000 : Nat) / 4 = 8000000
    decide
  · show (32000000 : Nat) / 4 / (3999 + 1) = 2000
    decide
  · show 2 * (((3999 : Nat) + 1) / 2) = 3999 + 1
    decide

/-- C7: enabling twice yields the same state as enabling once, and likewise
for disabling: for the enable-bit set/clear writes of the main loop (on the
raw CTRCTL register and through a whole loop iteration), and trivially for the
stub functions `EnableTimerA1PWM` / `DisableTimerA1PWM`. -/
theorem pwm_enable_disable_idempotent (c din : Nat) (s : SystemState) :
    (c ||| GPTIMER_CTRCTL_EN_ENABLED) ||| GPTIMER_CTRCTL_EN_ENABLED =
      c ||| GPTIMER_CTRCTL_EN_ENABLED ∧
    (c &&& (MASK32 ^^^ GPTIMER_CTRCTL_EN_ENABLED)) &&&
        (MASK32 ^^^ GPTIMER_CTRCTL_EN_ENABLED) =
      c &&& (MASK32 ^^^ GPTIMER_CTRCTL_EN_ENABLED) ∧
    EnableTimerA1PWM (EnableTimerA1PWM s) = EnableTimerA1PWM s ∧
    DisableTimerA1PWM (DisableTimerA1PWM s) = DisableTimerA1PWM s ∧
    mainLoopBody (mainLoopBody c din) din = mainLoopBody c din := by
  refine ⟨lor_en_idem c, land_noten_idem c, rfl, rfl, ?_⟩
  rw [mainLoopBody_eq_decision c din, mainLoopBody_eq_decision _ din]
  cases toneDecision din with
  | true => simpa using lor_en_idem c
  | false => simpa using land_noten_idem c

/-- C8: after the startup sequence of `main`, TIMG0 runs from the 32.768 kHz
low-frequency clock in auto-reload repeat mode with its zero-count interrupt
unmasked and the NVIC interrupt enabled, its LOAD register holds 20, and one
tick lasts 610 microseconds (about 0.6 ms), waking the sleeping processor on
each expiry. -/
theorem timer_g0_tick_config (s : SystemState) :
    (mainStartup s).timg0.clksel = ClkSel.lfclk ∧
    (mainStartup s).timg0.repeatMode = true ∧
    (mainStartup s).timg0.imaskZ = true ∧
    (mainStartup s).timg0.load = 20 ∧
    (mainStartup s).timg0.enabled = true ∧
    (mainStartup s).timg0.irqEnabled = true ∧
    tickMicroseconds (mainStartup s).timg0 = 610 := by
  refine ⟨rfl, rfl, rfl, rfl, rfl, rfl, ?_⟩
  show (20 : Nat) * 1000000 / 32768 = 610
  decide

/-- C9: the main-loop body is memoryless and depends only on the SW1 bit: two
GPIO samples agreeing on bit 23 produce, from any prior CTRCTL value, the same
CTRCTL value (hence the same PWM enable state); SW2, SW3, SW4 never influence
the output. -/
theorem mainLoop_depends_only_on_sw1 (ctrctl din1 din2 : Nat)
    (h : din1.testBit 23 = din2.testBit 23) :
    mainLoopBody ctrctl din1 = mainLoopBody ctrctl din2 := by
  rw [mainLoopBody_eq_decision ctrctl din1, mainLoopBody_eq_decision ctrctl din2,
    toneDecision_eq_not_testBit din1, toneDecision_eq_not_testBit din2, h]

/-- Witness for C9: din1 = 2^24 (SW2 released) and din2 = 2^25 + 2^26 (SW3 and
SW4 released) agree on bit 23, and one iteration from CTRCTL = 5 produces the
same register value. -/
theorem mainLoop_depends_only_on_sw1_witness :
    (2 ^ 24 : Nat).testBit 23 = (2 ^ 25 + 2 ^ 26 : Nat).testBit 23 ∧
    mainLoopBody 5 (2 ^ 24) = mainLoopBody 5 (2 ^ 25 + 2 ^ 26) :=
  ⟨by decide, mainLoop_depends_only_on_sw1 5 (2 ^ 24) (2 ^ 25 + 2 ^ 26) (by decide)⟩

/-- C10: the shipped stubs `SetTimerA1Period`, `EnableTimerA1PWM` and
`DisableTimerA1PWM` are no-ops for every argument: they return the hardware
state (both timers, every modelled register) unchanged. -/
theorem stub_functions_no_op (period : Nat) (s : SystemState) :
    SetTimerA1Period period s = s ∧
    EnableTimerA1PWM s = s ∧
    DisableTimerA1PWM s = s :=
  ⟨rfl, rfl, rfl⟩
